import Mathlib

/-!
Verification of the parametric curve/conic evaluation kernel of
compas_future (src/compas_future/geometry/curves/).

The geometry primitives (point, vector, frame, plane, transformation) are
external collaborators of this kernel: they are imported by the curve
modules but are not part of the curves package, so they are modelled from
the spec (sections 2, 3 and 6).  The curve classes themselves (Line,
Circle, Ellipse, Hyperbola, Parabola, the Conic base) are translated
directly from the Python source.  Machine floats are modelled by real
numbers; Python division by zero (ZeroDivisionError) is modelled by an
Option result where a claim depends on it.
-/

noncomputable section

open scoped Classical

namespace Compas

/-- Modelled from the spec: the 3D point/vector primitive (x, y, z) consumed
by the kernel (spec section 6), supporting addition, subtraction, scalar
multiplication, cross product, dot product, unitization and length.  The
point and vector types of the original library are structurally identical;
both are modelled by this one component record. -/
@[ext]
structure V3 where
  x : ℝ
  y : ℝ
  z : ℝ

/-- Modelled from the spec: componentwise vector addition. -/
def V3.add (u v : V3) : V3 :=
  ⟨u.x + v.x, u.y + v.y, u.z + v.z⟩

/-- Modelled from the spec: componentwise vector subtraction. -/
def V3.sub (u v : V3) : V3 :=
  ⟨u.x - v.x, u.y - v.y, u.z - v.z⟩

/-- Modelled from the spec: scalar multiplication (vector times scalar). -/
def V3.smul (v : V3) (c : ℝ) : V3 :=
  ⟨c * v.x, c * v.y, c * v.z⟩

/-- Modelled from the spec: euclidean dot product. -/
def V3.dot (u v : V3) : ℝ :=
  u.x * v.x + u.y * v.y + u.z * v.z

/-- Modelled from the spec: cross product. -/
def V3.cross (u v : V3) : V3 :=
  ⟨u.y * v.z - u.z * v.y, u.z * v.x - u.x * v.z, u.x * v.y - u.y * v.x⟩

/-- Modelled from the spec: euclidean length. -/
def V3.length (v : V3) : ℝ :=
  Real.sqrt (v.dot v)

/-- Modelled from the spec: unitization, scaling a vector to unit length by
dividing each component by the length.  At zero length the reference raises
ZeroDivisionError; here real division by zero yields the zero vector.  No
claim below is decided by the zero-length case. -/
def V3.unitize (v : V3) : V3 :=
  v.smul (1 / v.length)

/-- Modelled from the spec: the zero vector. -/
def V3.zero : V3 := ⟨0, 0, 0⟩

/-- Modelled from the spec: the world z axis, Vector.Zaxis() in the source. -/
def V3.worldZ : V3 := ⟨0, 0, 1⟩

/-- Modelled from the spec: the coordinate frame primitive (spec sections 2
and 3): an origin point plus two in-plane axes; the implied normal is their
cross product. -/
@[ext]
structure Frame where
  point : V3
  xaxis : V3
  yaxis : V3

/-- Modelled from the spec: the implied frame normal, the cross product of
the two in-plane axes. -/
def Frame.zaxis (f : Frame) : V3 :=
  f.xaxis.cross f.yaxis

/-- Modelled from the spec: the world XY frame, Frame.worldXY() in the
source: origin at zero, x axis (1,0,0), y axis (0,1,0). -/
def Frame.worldXY : Frame :=
  ⟨V3.zero, ⟨1, 0, 0⟩, ⟨0, 1, 0⟩⟩

/-- Orthonormality of the two stored axes, the frame invariant stated in
spec section 3 (unit, mutually orthogonal in-plane axes). -/
def Frame.Orthonormal (f : Frame) : Prop :=
  f.xaxis.dot f.xaxis = 1 ∧ f.yaxis.dot f.yaxis = 1 ∧ f.xaxis.dot f.yaxis = 0

/-- Modelled from the spec: the composable affine transformation primitive.
The kernel only needs the map sending local frame coordinates to world
coordinates (spec section 6), so the map is represented by its three basis
columns and its translation. -/
@[ext]
structure Transformation where
  xcol : V3
  ycol : V3
  zcol : V3
  translation : V3

/-- Modelled from the spec: Transformation.from_frame(frame) yields the map
from the local coordinates of the frame to world coordinates. -/
def Transformation.from_frame (f : Frame) : Transformation :=
  ⟨f.xaxis, f.yaxis, f.zaxis, f.point⟩

/-- Modelled from the spec: apply the map to a point (translation plus the
linear combination of the basis columns). -/
def Transformation.applyPoint (T : Transformation) (p : V3) : V3 :=
  ((T.translation.add (T.xcol.smul p.x)).add (T.ycol.smul p.y)).add
    (T.zcol.smul p.z)

/-- Modelled from the spec: apply the map to a direction vector (the linear
part only, no translation). -/
def Transformation.applyVector (T : Transformation) (v : V3) : V3 :=
  (((T.xcol.smul v.x)).add (T.ycol.smul v.y)).add (T.zcol.smul v.z)

/-- Modelled from the spec: a frame supports applying a rigid
transformation (spec section 2): the origin transforms as a point, the axes
as direction vectors. -/
def Frame.transform (f : Frame) (T : Transformation) : Frame :=
  ⟨T.applyPoint f.point, T.applyVector f.xaxis, T.applyVector f.yaxis⟩

/-- Modelled from the spec: the plane primitive (base point plus normal)
used by the Hyperbola plane property. -/
@[ext]
structure Plane where
  point : V3
  normal : V3

/-- Modelled from the spec: transforming a plane transforms its base point
as a point and its normal as a direction vector. -/
def Plane.transform (p : Plane) (T : Transformation) : Plane :=
  ⟨T.applyPoint p.point, T.applyVector p.normal⟩

/-!
Line, translated from src/compas_future/geometry/curves/line.py.
-/

/-- Line state: two endpoints, the only stored fields (slots _start, _end).
The field end is spelled endp because end is a reserved word. -/
@[ext]
structure Line where
  start : V3
  endp : V3

/-- Line.__init__(p1, p2): assigns start and end through their setters,
which coerce the argument into a point value. -/
def Line.init (p1 p2 : V3) : Line :=
  ⟨p1, p2⟩

/-- Line.vector: end - start. -/
def Line.vector (l : Line) : V3 :=
  l.endp.sub l.start

/-- Line.length: the length of the vector from start to end. -/
def Line.length (l : Line) : ℝ :=
  l.vector.length

/-- Line.direction: vector * (1 / length).  In the reference this raises
ZeroDivisionError when start equals end; here 1 / 0 = 0 yields the zero
vector.  No claim below is decided by the degenerate case. -/
def Line.direction (l : Line) : V3 :=
  l.vector.smul (1 / l.length)

/-- Line.point_at(t): returns start when t == 0, end when t == 1, and
start + vector * t otherwise. -/
def Line.point_at (l : Line) (t : ℝ) : V3 :=
  if t = 0 then l.start
  else if t = 1 then l.endp
  else l.start.add (l.vector.smul t)

/-- Line.data: the serialized field set, start and end. -/
def Line.data (l : Line) : V3 × V3 :=
  (l.start, l.endp)

/-- Line.from_data(data): cls(data[start], data[end]). -/
def Line.from_data (d : V3 × V3) : Line :=
  Line.init d.1 d.2

/-- Modelled from the spec: euclidean distance from a point to the line
through l.start with direction l.direction (used to state the
focus-directrix oracle of spec section 8; the kernel itself exposes the
directrix only as a Line value).  The distance is the length of the
component of q - start perpendicular to the unit direction. -/
def distToLine (q : V3) (l : Line) : ℝ :=
  let w := q.sub l.start
  let d := l.direction
  (w.sub (d.smul (w.dot d))).length

/-!
Conic cache invariant.  Every conic stores a cached local-to-world map in
_transformation; the invariant of spec section 9 is that the cache always
equals Transformation.from_frame of the current frame.
-/

/-!
Circle, translated from src/compas_future/geometry/curves/circle.py.
-/

/-- Circle state: slots _frame and _radius plus the cached _transformation
assigned by the frame setter. -/
@[ext]
structure Circle where
  frame : Frame
  radius : ℝ
  transformation : Transformation

/-- Circle.__init__(frame, radius): the frame setter stores the frame and
rebuilds the cache from it; the radius setter stores float(radius) (the
float coercion is the identity here). -/
def Circle.init (frame : Frame) (radius : ℝ) : Circle :=
  ⟨frame, radius, Transformation.from_frame frame⟩

/-- Circle.frame setter: stores the frame and recomputes _transformation
with Transformation.from_frame. -/
def Circle.set_frame (c : Circle) (f : Frame) : Circle :=
  ⟨f, c.radius, Transformation.from_frame f⟩

/-- Circle.point setter: assigns self.frame.point = point, leaving the
cached _transformation untouched.  (The if point guard of the source is
always satisfied by a point object.) -/
def Circle.set_point (c : Circle) (p : V3) : Circle :=
  ⟨⟨p, c.frame.xaxis, c.frame.yaxis⟩, c.radius, c.transformation⟩

/-- Circle.radius setter: stores float(radius) unconditionally. -/
def Circle.set_radius (c : Circle) (r : ℝ) : Circle :=
  ⟨c.frame, r, c.transformation⟩

/-- Conic.transform(T), inherited by Circle: transforms the frame in place,
then recomputes _transformation from the new frame. -/
def Circle.transform (c : Circle) (T : Transformation) : Circle :=
  ⟨c.frame.transform T, c.radius, Transformation.from_frame (c.frame.transform T)⟩

/-- Circle.point property: the center, self.frame.point. -/
def Circle.point (c : Circle) : V3 :=
  c.frame.point

/-- Circle.area: pi * radius ** 2. -/
def Circle.area (c : Circle) : ℝ :=
  Real.pi * c.radius ^ 2

/-- Circle.circumference: 2 * pi * radius. -/
def Circle.circumference (c : Circle) : ℝ :=
  2 * Real.pi * c.radius

/-- Circle.point_at(t, normalized): local point
(radius * cos t, radius * sin t, 0) mapped through the cached frame
transformation; the normalized flag first rescales t by 2 pi. -/
def Circle.point_at (c : Circle) (t : ℝ) (normalized : Bool) : V3 :=
  let t := if normalized then t * 2 * Real.pi else t
  c.transformation.applyPoint ⟨c.radius * Real.cos t, c.radius * Real.sin t, 0⟩

/-- Circle.normal_at(t, normalized): the unitized vector from the evaluated
point toward the center. -/
def Circle.normal_at (c : Circle) (t : ℝ) (normalized : Bool) : V3 :=
  let t := if normalized then t * 2 * Real.pi else t
  ((c.point).sub (c.point_at t false)).unitize

/-- Circle.tangent_at(t, normalized): the normal at t crossed with the
frame z axis, unitized. -/
def Circle.tangent_at (c : Circle) (t : ℝ) (normalized : Bool) : V3 :=
  let t := if normalized then t * 2 * Real.pi else t
  ((c.normal_at t false).cross c.frame.zaxis).unitize

/-- Circle.data: the serialized field set, frame and radius. -/
def Circle.data (c : Circle) : Frame × ℝ :=
  (c.frame, c.radius)

/-- Circle.from_data(data): cls(data[frame], data[radius]). -/
def Circle.from_data (d : Frame × ℝ) : Circle :=
  Circle.init d.1 d.2

/-!
Ellipse, translated from src/compas_future/geometry/curves/ellipse.py.
Only the state, the mutation paths and the serialization are needed by the
claims below.
-/

/-- Ellipse state: slots _frame, _major, _minor plus the cached
_transformation assigned by the frame setter. -/
@[ext]
structure Ellipse where
  frame : Frame
  major : ℝ
  minor : ℝ
  transformation : Transformation

/-- Ellipse.__init__(frame, major, minor): frame setter rebuilds the cache;
major and minor setters store float(value) unconditionally. -/
def Ellipse.init (frame : Frame) (major minor : ℝ) : Ellipse :=
  ⟨frame, major, minor, Transformation.from_frame frame⟩

/-- Ellipse.frame setter: stores the frame and recomputes _transformation. -/
def Ellipse.set_frame (e : Ellipse) (f : Frame) : Ellipse :=
  ⟨f, e.major, e.minor, Transformation.from_frame f⟩

/-- Ellipse.point setter: assigns self.frame.point = point, leaving the
cached _transformation untouched. -/
def Ellipse.set_point (e : Ellipse) (p : V3) : Ellipse :=
  ⟨⟨p, e.frame.xaxis, e.frame.yaxis⟩, e.major, e.minor, e.transformation⟩

/-- Ellipse.major setter: stores float(major) unconditionally. -/
def Ellipse.set_major (e : Ellipse) (m : ℝ) : Ellipse :=
  ⟨e.frame, m, e.minor, e.transformation⟩

/-- Ellipse.minor setter: stores float(minor) unconditionally. -/
def Ellipse.set_minor (e : Ellipse) (m : ℝ) : Ellipse :=
  ⟨e.frame, e.major, m, e.transformation⟩

/-- Conic.transform(T), inherited by Ellipse: transforms the frame in
place, then recomputes _transformation from the new frame. -/
def Ellipse.transform (e : Ellipse) (T : Transformation) : Ellipse :=
  ⟨e.frame.transform T, e.major, e.minor,
    Transformation.from_frame (e.frame.transform T)⟩

/-- Ellipse serialized field set: frame, major, minor. -/
@[ext]
structure EllipseData where
  frame : Frame
  major : ℝ
  minor : ℝ

/-- Ellipse.data: the data dictionary with keys frame, major, minor. -/
def Ellipse.data (e : Ellipse) : EllipseData :=
  ⟨e.frame, e.major, e.minor⟩

/-- Ellipse.from_data(data): the source reads
cls(data[frame], data[minor], data[minor]), passing the minor entry both
as the major and as the minor constructor argument. -/
def Ellipse.from_data (d : EllipseData) : Ellipse :=
  Ellipse.init d.frame d.minor d.minor

/-!
Hyperbola, translated from src/compas_future/geometry/curves/hyperbola.py.
-/

/-- Hyperbola state: slots _frame, _major, _minor plus the cached
_transformation assigned by the frame setter. -/
@[ext]
structure Hyperbola where
  frame : Frame
  major : ℝ
  minor : ℝ
  transformation : Transformation

/-- Hyperbola.__init__(frame, major, minor). -/
def Hyperbola.init (frame : Frame) (major minor : ℝ) : Hyperbola :=
  ⟨frame, major, minor, Transformation.from_frame frame⟩

/-- Hyperbola.frame setter: stores the frame and recomputes
_transformation. -/
def Hyperbola.set_frame (h : Hyperbola) (f : Frame) : Hyperbola :=
  ⟨f, h.major, h.minor, Transformation.from_frame f⟩

/-- Hyperbola.point setter: assigns self.frame.point = point, leaving the
cached _transformation untouched. -/
def Hyperbola.set_point (h : Hyperbola) (p : V3) : Hyperbola :=
  ⟨⟨p, h.frame.xaxis, h.frame.yaxis⟩, h.major, h.minor, h.transformation⟩

/-- Hyperbola.major setter: stores float(major) unconditionally. -/
def Hyperbola.set_major (h : Hyperbola) (m : ℝ) : Hyperbola :=
  ⟨h.frame, m, h.minor, h.transformation⟩

/-- Hyperbola.minor setter: stores float(minor) unconditionally. -/
def Hyperbola.set_minor (h : Hyperbola) (m : ℝ) : Hyperbola :=
  ⟨h.frame, h.major, m, h.transformation⟩

/-- Hyperbola.a property: the major radius. -/
def Hyperbola.a (h : Hyperbola) : ℝ := h.major

/-- Hyperbola.b property: the minor radius. -/
def Hyperbola.b (h : Hyperbola) : ℝ := h.minor

/-- Hyperbola.point property: self.frame.point. -/
def Hyperbola.point (h : Hyperbola) : V3 := h.frame.point

/-- Hyperbola.normal property: self.frame.zaxis. -/
def Hyperbola.normal (h : Hyperbola) : V3 := h.frame.zaxis

/-- Hyperbola.plane property: Plane(self.point, self.normal), a fresh plane
value constructed on each access. -/
def Hyperbola.plane (h : Hyperbola) : Plane :=
  ⟨h.point, h.normal⟩

/-- Hyperbola.point_at(t, normalized): computes secant = 1 / cos t and the
local point (a * secant, b * sin t * secant, 0) mapped through the cached
frame transformation.  The division raises ZeroDivisionError exactly when
cos t = 0, modelled by the none result. -/
def Hyperbola.point_at (h : Hyperbola) (t : ℝ) (normalized : Bool) :
    Option V3 :=
  let t := if normalized then t * 2 * Real.pi else t
  if Real.cos t = 0 then none
  else
    let secant := 1 / Real.cos t
    some (h.transformation.applyPoint
      ⟨h.a * secant, h.b * Real.sin t * secant, 0⟩)

/-- Hyperbola.transform(T): the source evaluates self.plane (a fresh plane
value), transforms that temporary and stores nothing back; the overridden
method replaces the Conic base behavior of frame replacement plus cache
rebuild.  The pair returned here makes the discarded temporary explicit:
the first component is the (unchanged) hyperbola state, the second the
transformed temporary plane. -/
def Hyperbola.transform (h : Hyperbola) (T : Transformation) :
    Hyperbola × Plane :=
  (h, (h.plane).transform T)

/-- Hyperbola serialized field set: frame, major, minor. -/
@[ext]
structure HyperbolaData where
  frame : Frame
  major : ℝ
  minor : ℝ

/-- Hyperbola.data: the data dictionary with keys frame, major, minor. -/
def Hyperbola.data (h : Hyperbola) : HyperbolaData :=
  ⟨h.frame, h.major, h.minor⟩

/-- Hyperbola.from_data(data): the source reads
cls(data[frame], data[minor], data[minor]), passing the minor entry both
as the major and as the minor constructor argument. -/
def Hyperbola.from_data (d : HyperbolaData) : Hyperbola :=
  Hyperbola.init d.frame d.minor d.minor

/-!
Parabola, translated from src/compas_future/geometry/curves/parabola.py.
-/

/-- Parabola state: slots _frame and _focal plus the cached _transformation
assigned by the frame setter. -/
@[ext]
structure Parabola where
  frame : Frame
  focal : ℝ
  transformation : Transformation

/-- Parabola.__init__(frame, focal). -/
def Parabola.init (frame : Frame) (focal : ℝ) : Parabola :=
  ⟨frame, focal, Transformation.from_frame frame⟩

/-- Parabola.frame setter: stores the frame and recomputes
_transformation. -/
def Parabola.set_frame (p : Parabola) (f : Frame) : Parabola :=
  ⟨f, p.focal, Transformation.from_frame f⟩

/-- Parabola.point setter: assigns self.frame.point = point, leaving the
cached _transformation untouched. -/
def Parabola.set_point (p : Parabola) (q : V3) : Parabola :=
  ⟨⟨q, p.frame.xaxis, p.frame.yaxis⟩, p.focal, p.transformation⟩

/-- Parabola.focal setter: stores the value unconditionally. -/
def Parabola.set_focal (p : Parabola) (f : ℝ) : Parabola :=
  ⟨p.frame, f, p.transformation⟩

/-- Conic.transform(T), inherited by Parabola: transforms the frame in
place, then recomputes _transformation from the new frame. -/
def Parabola.transform (p : Parabola) (T : Transformation) : Parabola :=
  ⟨p.frame.transform T, p.focal, Transformation.from_frame (p.frame.transform T)⟩

/-- Parabola.a property: the shape coefficient 1 / (4 * focal). -/
def Parabola.a (p : Parabola) : ℝ :=
  1 / (4 * p.focal)

/-- Parabola.vertex property: self.frame.point. -/
def Parabola.vertex (p : Parabola) : V3 :=
  p.frame.point

/-- Parabola.focus property: self.frame.point + self.yaxis * self.focal. -/
def Parabola.focus (p : Parabola) : V3 :=
  p.frame.point.add (p.frame.yaxis.smul p.focal)

/-- Parabola.directix property: the line through
self.frame.point + self.yaxis * (-focal) toward that point plus the x
axis. -/
def Parabola.directix (p : Parabola) : Line :=
  let q := p.frame.point.add (p.frame.yaxis.smul (-p.focal))
  Line.init q (q.add p.frame.xaxis)

/-- Parabola.point_at(t): local point (t, a * t ** 2, 0) mapped through the
cached frame transformation.  Unlike the other conics, the method accepts
only the parameter t: there is no normalized keyword. -/
def Parabola.point_at (p : Parabola) (t : ℝ) : V3 :=
  p.transformation.applyPoint ⟨t, p.a * t ^ 2, 0⟩

/-- Parabola.tangent_at(t): the secant construction of the source: with
x0 = t, y0 = a * t ** 2, x = 2 * t, y = 2 * a * x0 * x - y0, the vector
(x - x0, y - y0, 0) is unitized and then mapped as a direction through the
cached frame transformation.  No normalized keyword. -/
def Parabola.tangent_at (p : Parabola) (t : ℝ) : V3 :=
  let x0 := t
  let y0 := p.a * t ^ 2
  let x := 2 * t
  let y := 2 * p.a * x0 * x - y0
  p.transformation.applyVector (V3.unitize ⟨x - x0, y - y0, 0⟩)

/-- Parabola.normal_at(t): the perpendicular (y0 - y, x - x0, 0) of the
same secant construction, unitized and mapped as a direction.  No
normalized keyword. -/
def Parabola.normal_at (p : Parabola) (t : ℝ) : V3 :=
  let x0 := t
  let y0 := p.a * t ^ 2
  let x := 2 * t
  let y := 2 * p.a * x0 * x - y0
  p.transformation.applyVector (V3.unitize ⟨y0 - y, x - x0, 0⟩)

/-- Parabola serialized field set: frame, focal. -/
def Parabola.data (p : Parabola) : Frame × ℝ :=
  (p.frame, p.focal)

/-- Parabola.from_data(data): cls(data[frame], data[focal]). -/
def Parabola.from_data (d : Frame × ℝ) : Parabola :=
  Parabola.init d.1 d.2

/-!
Python call semantics for keyword arguments, needed by Parabola.frame_at:
a call passing a keyword name that the callee does not declare raises
TypeError before the body runs.
-/

/-- Python errors surfaced by the embedded methods. -/
inductive PyError where
  | typeError
deriving DecidableEq

/-- A Python call is accepted when every passed keyword name is declared by
the callee. -/
def keywordsAccepted (declared passed : List String) : Bool :=
  passed.all (fun k => declared.contains k)

/-- Keyword parameters of Parabola.point_at, declared def point_at(self, t):
none. -/
def Parabola.point_at_keywords : List String := []

/-- Keyword parameters of Parabola.tangent_at, declared
def tangent_at(self, t): none. -/
def Parabola.tangent_at_keywords : List String := []

/-- Parabola.frame_at(t): the source calls
self.point_at(t, normalized=False) and self.tangent_at(t, normalized=False)
and builds Frame(point, xaxis, frame.zaxis cross xaxis).  Both callees are
declared without the normalized keyword, so the calls are guarded by the
keyword check of Python call semantics. -/
def Parabola.frame_at (p : Parabola) (t : ℝ) : Except PyError Frame :=
  if keywordsAccepted Parabola.point_at_keywords ["normalized"] then
    if keywordsAccepted Parabola.tangent_at_keywords ["normalized"] then
      let point := p.point_at t
      let xaxis := p.tangent_at t
      let yaxis := (p.frame.zaxis).cross xaxis
      Except.ok ⟨point, xaxis, yaxis⟩
    else Except.error PyError.typeError
  else Except.error PyError.typeError

/-!
Vector algebra helper lemmas.
-/

lemma V3.dot_nonneg (v : V3) : 0 ≤ v.dot v := by
  simp only [V3.dot]
  nlinarith [sq_nonneg v.x, sq_nonneg v.y, sq_nonneg v.z]

lemma V3.dot_self_eq_sq_length (v : V3) : v.dot v = v.length ^ 2 := by
  rw [V3.length, Real.sq_sqrt (V3.dot_nonneg v)]

lemma V3.length_nonneg (v : V3) : 0 ≤ v.length :=
  Real.sqrt_nonneg _

lemma V3.length_smul (v : V3) (c : ℝ) : (v.smul c).length = |c| * v.length := by
  have h : (v.smul c).dot (v.smul c) = c ^ 2 * v.dot v := by
    simp only [V3.smul, V3.dot]; ring
  rw [V3.length, h, Real.sqrt_mul (sq_nonneg c), Real.sqrt_sq_eq_abs, V3.length]

lemma V3.unitize_length (v : V3) (h : v.length ≠ 0) : v.unitize.length = 1 := by
  rw [V3.unitize, V3.length_smul,
    abs_of_nonneg (one_div_nonneg.mpr (V3.length_nonneg v))]
  field_simp

lemma V3.unitize_dot_self (v : V3) (h : v.length ≠ 0) :
    v.unitize.dot v.unitize = 1 := by
  rw [V3.dot_self_eq_sq_length, V3.unitize_length v h]; norm_num

lemma V3.smul_dot (v : V3) (c : ℝ) (w : V3) :
    (v.smul c).dot w = c * v.dot w := by
  simp only [V3.smul, V3.dot]; ring

lemma V3.dot_cross_left (u v : V3) : (u.cross v).dot u = 0 := by
  simp only [V3.cross, V3.dot]; ring

lemma V3.dot_cross_right (u v : V3) : (u.cross v).dot v = 0 := by
  simp only [V3.cross, V3.dot]; ring

lemma V3.self_dot_cross (u v : V3) : u.dot (u.cross v) = 0 := by
  simp only [V3.cross, V3.dot]; ring

lemma V3.other_dot_cross (u v : V3) : v.dot (u.cross v) = 0 := by
  simp only [V3.cross, V3.dot]; ring

lemma V3.lagrange (u v : V3) :
    (u.cross v).dot (u.cross v) = u.dot u * v.dot v - u.dot v ^ 2 := by
  simp only [V3.cross, V3.dot]; ring

lemma V3.dot_lincomb (u v : V3) (s r : ℝ) :
    ((u.smul s).add (v.smul r)).dot ((u.smul s).add (v.smul r)) =
      s ^ 2 * (u.dot u) + 2 * s * r * (u.dot v) + r ^ 2 * (v.dot v) := by
  simp only [V3.add, V3.smul, V3.dot]; ring

lemma V3.lincomb_dot (u v w : V3) (s r : ℝ) :
    ((u.smul s).add (v.smul r)).dot w = s * (u.dot w) + r * (v.dot w) := by
  simp only [V3.add, V3.smul, V3.dot]; ring

lemma V3.smul_smul (v : V3) (c d : ℝ) : (v.smul c).smul d = v.smul (d * c) := by
  ext <;> simp only [V3.smul] <;> ring

lemma V3.unitize_smul_pos (v : V3) (c : ℝ) (hc : 0 < c) :
    (v.smul c).unitize = v.unitize := by
  rw [V3.unitize, V3.unitize, V3.length_smul, abs_of_pos hc, V3.smul_smul]
  congr 1
  by_cases h : v.length = 0
  · simp [h]
  · have hc' : c ≠ 0 := ne_of_gt hc
    field_simp

lemma worldXY_orthonormal : Frame.worldXY.Orthonormal := by
  refine ⟨?_, ?_, ?_⟩ <;> norm_num [Frame.worldXY, V3.dot]

/-!
Cache invariant predicates for claim C1.
-/

/-- The C1 invariant for Circle: the cached local-to-world map equals
Transformation.from_frame of the current frame. -/
def Circle.CacheMatchesFrame (c : Circle) : Prop :=
  c.transformation = Transformation.from_frame c.frame

/-- The C1 invariant for Ellipse. -/
def Ellipse.CacheMatchesFrame (e : Ellipse) : Prop :=
  e.transformation = Transformation.from_frame e.frame

/-- The C1 invariant for Hyperbola. -/
def Hyperbola.CacheMatchesFrame (h : Hyperbola) : Prop :=
  h.transformation = Transformation.from_frame h.frame

/-- The C1 invariant for Parabola. -/
def Parabola.CacheMatchesFrame (p : Parabola) : Prop :=
  p.transformation = Transformation.from_frame p.frame

/-- C1 counterexample: the claim requires the cache-matches-frame
invariant to hold after assigning the point property, but the point setter
moves the frame origin without rebuilding the cached transformation.  For
the circle constructed on the world XY frame, assigning point (1, 2, 3)
leaves a cache whose translation is still the old origin, so the invariant
fails. -/
theorem C1_counterexample :
    ¬ Circle.CacheMatchesFrame
        (Circle.set_point (Circle.init Frame.worldXY 1) ⟨1, 2, 3⟩) := by
  intro h
  have hx := congrArg (fun T => T.translation.x) h
  simp only [Circle.set_point, Circle.init, Transformation.from_frame,
    Frame.worldXY, V3.zero] at hx
  norm_num at hx

/-- C1 amended: for every conic, the cache-matches-frame invariant holds
after construction, after frame reassignment and after transform(T), and it
is preserved by the shape setters (radius, major, minor, focal), which
touch neither the frame nor the cache; assigning the point property is the
one public mutation that breaks it (see the counterexample). -/
theorem C1_amended_cache_invariant :
    (∀ (f : Frame) (r : ℝ), (Circle.init f r).CacheMatchesFrame) ∧
    (∀ (c : Circle) (f : Frame), (c.set_frame f).CacheMatchesFrame) ∧
    (∀ (c : Circle) (T : Transformation), (c.transform T).CacheMatchesFrame) ∧
    (∀ (c : Circle) (r : ℝ),
      c.CacheMatchesFrame → (c.set_radius r).CacheMatchesFrame) ∧
    (∀ (f : Frame) (M m : ℝ), (Ellipse.init f M m).CacheMatchesFrame) ∧
    (∀ (e : Ellipse) (f : Frame), (e.set_frame f).CacheMatchesFrame) ∧
    (∀ (e : Ellipse) (T : Transformation), (e.transform T).CacheMatchesFrame) ∧
    (∀ (e : Ellipse) (m : ℝ),
      e.CacheMatchesFrame → (e.set_major m).CacheMatchesFrame) ∧
    (∀ (e : Ellipse) (m : ℝ),
      e.CacheMatchesFrame → (e.set_minor m).CacheMatchesFrame) ∧
    (∀ (f : Frame) (M m : ℝ), (Hyperbola.init f M m).CacheMatchesFrame) ∧
    (∀ (h : Hyperbola) (f : Frame), (h.set_frame f).CacheMatchesFrame) ∧
    (∀ (h : Hyperbola) (T : Transformation),
      h.CacheMatchesFrame → ((h.transform T).1).CacheMatchesFrame) ∧
    (∀ (h : Hyperbola) (m : ℝ),
      h.CacheMatchesFrame → (h.set_major m).CacheMatchesFrame) ∧
    (∀ (h : Hyperbola) (m : ℝ),
      h.CacheMatchesFrame → (h.set_minor m).CacheMatchesFrame) ∧
    (∀ (f : Frame) (fc : ℝ), (Parabola.init f fc).CacheMatchesFrame) ∧
    (∀ (p : Parabola) (f : Frame), (p.set_frame f).CacheMatchesFrame) ∧
    (∀ (p : Parabola) (T : Transformation), (p.transform T).CacheMatchesFrame) ∧
    (∀ (p : Parabola) (fc : ℝ),
      p.CacheMatchesFrame → (p.set_focal fc).CacheMatchesFrame) := by
  refine ⟨fun _ _ => rfl, fun _ _ => rfl, fun _ _ => rfl, fun _ _ h => h,
    fun _ _ _ => rfl, fun _ _ => rfl, fun _ _ => rfl, fun _ _ h => h,
    fun _ _ h => h, fun _ _ _ => rfl, fun _ _ => rfl, fun _ _ h => h,
    fun _ _ h => h, fun _ _ h => h, fun _ _ => rfl, fun _ _ => rfl,
    fun _ _ => rfl, fun _ _ h => h⟩

/-- C1 witness: the preservation conjuncts applied on concretely
constructed conics, with the invariant hypotheses discharged by the
construction conjuncts. -/
theorem C1_amended_cache_invariant_witness :
    (Circle.set_radius (Circle.init Frame.worldXY 1) 2).CacheMatchesFrame ∧
    (Ellipse.set_major (Ellipse.init Frame.worldXY 3 2) 4).CacheMatchesFrame ∧
    (Ellipse.set_minor (Ellipse.init Frame.worldXY 3 2) 1).CacheMatchesFrame ∧
    ((Hyperbola.transform (Hyperbola.init Frame.worldXY 3 2)
        (Transformation.from_frame Frame.worldXY)).1).CacheMatchesFrame ∧
    (Hyperbola.set_major (Hyperbola.init Frame.worldXY 3 2) 4).CacheMatchesFrame ∧
    (Hyperbola.set_minor (Hyperbola.init Frame.worldXY 3 2) 1).CacheMatchesFrame ∧
    (Parabola.set_focal (Parabola.init Frame.worldXY 1) 2).CacheMatchesFrame := by
  obtain ⟨cInit, _, _, cRad, eInit, _, _, eMaj, eMin, hInit, _, hTra, hMaj,
    hMin, pInit, _, _, pFoc⟩ := C1_amended_cache_invariant
  exact ⟨cRad _ 2 (cInit Frame.worldXY 1),
    eMaj _ 4 (eInit Frame.worldXY 3 2),
    eMin _ 1 (eInit Frame.worldXY 3 2),
    hTra _ _ (hInit Frame.worldXY 3 2),
    hMaj _ 4 (hInit Frame.worldXY 3 2),
    hMin _ 1 (hInit Frame.worldXY 3 2),
    pFoc _ 2 (pInit Frame.worldXY 1)⟩

/-- C2: Hyperbola.transform(T) transforms a freshly constructed plane
representation and stores nothing back: the frame, major, minor and cached
local-to-world map are unchanged, and point_at returns the same points
before and after the call, diverging from the Conic base contract of frame
replacement plus cache rebuild. -/
theorem C2_hyperbola_transform_leaves_state (h : Hyperbola)
    (T : Transformation) :
    (h.transform T).1.frame = h.frame ∧
    (h.transform T).1.major = h.major ∧
    (h.transform T).1.minor = h.minor ∧
    (h.transform T).1.transformation = h.transformation ∧
    (∀ (t : ℝ) (n : Bool), (h.transform T).1.point_at t n = h.point_at t n) ∧
    (h.transform T).2 = (h.plane).transform T :=
  ⟨rfl, rfl, rfl, rfl, fun _ _ => rfl, rfl⟩

/-- C5: the round trip from_data(curve.data) restores the stored fields
for Line, Circle and Parabola, but Ellipse.from_data and
Hyperbola.from_data pass the minor entry of the data dictionary as the
major constructor argument, so a curve with major 3 and minor 2 comes back
with major 2: the claimed exact reconstruction fails for Ellipse and
Hyperbola. -/
theorem C5_from_data_round_trip :
    (∀ l : Line, Line.from_data l.data = l) ∧
    (∀ c : Circle, (Circle.from_data c.data).frame = c.frame ∧
      (Circle.from_data c.data).radius = c.radius) ∧
    (∀ p : Parabola, (Parabola.from_data p.data).frame = p.frame ∧
      (Parabola.from_data p.data).focal = p.focal) ∧
    (∀ e : Ellipse, (Ellipse.from_data e.data).major = e.minor ∧
      (Ellipse.from_data e.data).minor = e.minor) ∧
    (∀ h : Hyperbola, (Hyperbola.from_data h.data).major = h.minor ∧
      (Hyperbola.from_data h.data).minor = h.minor) ∧
    (Ellipse.from_data (Ellipse.init Frame.worldXY 3 2).data).major = 2 ∧
    (Ellipse.init Frame.worldXY 3 2).major = 3 ∧
    (Hyperbola.from_data (Hyperbola.init Frame.worldXY 3 2).data).major = 2 ∧
    (Hyperbola.init Frame.worldXY 3 2).major = 3 ∧
    (2 : ℝ) ≠ 3 := by
  refine ⟨fun l => rfl, fun c => ⟨rfl, rfl⟩, fun p => ⟨rfl, rfl⟩,
    fun e => ⟨rfl, rfl⟩, fun h => ⟨rfl, rfl⟩, rfl, rfl, rfl, rfl, by norm_num⟩

/-- C6: Line.point_at returns start exactly at t = 0, end exactly at t = 1,
and start + t * (end - start) at every other parameter, with no restriction
of t to the unit interval. -/
theorem C6_line_point_at (l : Line) :
    l.point_at 0 = l.start ∧
    l.point_at 1 = l.endp ∧
    ∀ t : ℝ, t ≠ 0 → t ≠ 1 →
      l.point_at t = l.start.add ((l.endp.sub l.start).smul t) := by
  refine ⟨by simp [Line.point_at], by simp [Line.point_at], ?_⟩
  intro t h0 h1
  simp [Line.point_at, h0, h1, Line.vector]

/-- C6 witness: the theorem applied to a concrete line at the interior
parameter one half and at both endpoints. -/
theorem C6_line_point_at_witness :
    (Line.init ⟨0, 0, 0⟩ ⟨2, 0, 0⟩).point_at 0 =
      (Line.init ⟨0, 0, 0⟩ ⟨2, 0, 0⟩).start ∧
    (Line.init ⟨0, 0, 0⟩ ⟨2, 0, 0⟩).point_at 1 =
      (Line.init ⟨0, 0, 0⟩ ⟨2, 0, 0⟩).endp ∧
    (Line.init ⟨0, 0, 0⟩ ⟨2, 0, 0⟩).point_at (1 / 2) =
      (Line.init ⟨0, 0, 0⟩ ⟨2, 0, 0⟩).start.add
        (((Line.init ⟨0, 0, 0⟩ ⟨2, 0, 0⟩).endp.sub
          (Line.init ⟨0, 0, 0⟩ ⟨2, 0, 0⟩).start).smul (1 / 2)) :=
  ⟨(C6_line_point_at _).1, (C6_line_point_at _).2.1,
    (C6_line_point_at _).2.2 (1 / 2) (by norm_num) (by norm_num)⟩

/-- C9 counterexample: the claim requires construction and mutation with a
non-positive shape parameter to fail; instead the setters store the value
unchanged, so a circle with radius -1, an ellipse with major -3 and minor
-2, and a hyperbola whose major is reassigned to -5 are all accepted. -/
theorem C9_counterexample :
    (Circle.init Frame.worldXY (-1)).radius = -1 ∧
    (Circle.set_radius (Circle.init Frame.worldXY 1) 0).radius = 0 ∧
    (Ellipse.init Frame.worldXY (-3) (-2)).major = -3 ∧
    (Ellipse.init Frame.worldXY (-3) (-2)).minor = -2 ∧
    (Hyperbola.set_major (Hyperbola.init Frame.worldXY 1 1) (-5)).major = -5 :=
  ⟨rfl, rfl, rfl, rfl, rfl⟩

/-- C9 amended: constructing a Circle, Ellipse or Hyperbola, or mutating
radius, major or minor through the setters, stores the given value
unconditionally (after float coercion): no positivity validation happens at
the boundary, so non-positive values are accepted and produce degenerate
geometry; strict positivity is declared only in the serialization data
schema. -/
theorem C9_amended_setters_store_unconditionally :
    (∀ (f : Frame) (r : ℝ), (Circle.init f r).radius = r) ∧
    (∀ (c : Circle) (r : ℝ), (Circle.set_radius c r).radius = r) ∧
    (∀ (f : Frame) (M m : ℝ),
      (Ellipse.init f M m).major = M ∧ (Ellipse.init f M m).minor = m) ∧
    (∀ (e : Ellipse) (m : ℝ), (Ellipse.set_major e m).major = m) ∧
    (∀ (e : Ellipse) (m : ℝ), (Ellipse.set_minor e m).minor = m) ∧
    (∀ (f : Frame) (M m : ℝ),
      (Hyperbola.init f M m).major = M ∧ (Hyperbola.init f M m).minor = m) ∧
    (∀ (h : Hyperbola) (m : ℝ), (Hyperbola.set_major h m).major = m) ∧
    (∀ (h : Hyperbola) (m : ℝ), (Hyperbola.set_minor h m).minor = m) :=
  ⟨fun _ _ => rfl, fun _ _ => rfl, fun _ _ _ => ⟨rfl, rfl⟩, fun _ _ => rfl,
    fun _ _ => rfl, fun _ _ _ => ⟨rfl, rfl⟩, fun _ _ => rfl, fun _ _ => rfl⟩

/-- C10: Parabola.frame_at always fails with TypeError, because it passes
the keyword normalized to Parabola.point_at and Parabola.tangent_at, which
accept only the parameter t. -/
theorem C10_parabola_frame_at_type_error (p : Parabola) (t : ℝ) :
    p.frame_at t = Except.error PyError.typeError := by
  simp [Parabola.frame_at, keywordsAccepted, Parabola.point_at_keywords]

/-!
Circle evaluator lemmas for claim C3.
-/

lemma circle_init_point_sub_center (f : Frame) (r t : ℝ) :
    ((Circle.init f r).point_at t false).sub (Circle.init f r).point =
      (f.xaxis.smul (r * Real.cos t)).add (f.yaxis.smul (r * Real.sin t)) := by
  ext <;>
    simp [Circle.point_at, Circle.init, Circle.point, Transformation.applyPoint,
      Transformation.from_frame, Frame.zaxis, V3.add, V3.sub, V3.smul,
      V3.cross] <;>
    ring

lemma circle_init_center_sub_point (f : Frame) (r t : ℝ) :
    ((Circle.init f r).point).sub ((Circle.init f r).point_at t false) =
      (f.xaxis.smul (-(r * Real.cos t))).add
        (f.yaxis.smul (-(r * Real.sin t))) := by
  ext <;>
    simp [Circle.point_at, Circle.init, Circle.point, Transformation.applyPoint,
      Transformation.from_frame, Frame.zaxis, V3.add, V3.sub, V3.smul,
      V3.cross] <;>
    ring

lemma circle_init_normal_at (f : Frame) (r t : ℝ) :
    (Circle.init f r).normal_at t false =
      V3.unitize ((f.xaxis.smul (-(r * Real.cos t))).add
        (f.yaxis.smul (-(r * Real.sin t)))) := by
  rw [show (Circle.init f r).normal_at t false =
      (((Circle.init f r).point).sub ((Circle.init f r).point_at t false)).unitize
    from rfl, circle_init_center_sub_point]

lemma circle_init_tangent_at (f : Frame) (r t : ℝ) :
    (Circle.init f r).tangent_at t false =
      (((Circle.init f r).normal_at t false).cross f.zaxis).unitize := rfl

/-- C3: for every circle on an orthonormal frame with positive radius, the
evaluated point lies at distance radius from the center, the tangent is
perpendicular to the normal and both are unit vectors; on the world XY
frame with radius 3 the evaluators return (3,0,0) at t = 0 and (0,3,0) at
t = pi / 2, the circumference is 6 pi and the area is 9 pi. -/
theorem C3_circle_evaluators (f : Frame) (r t : ℝ) (hf : f.Orthonormal)
    (hr : 0 < r) :
    ((((Circle.init f r).point_at t false).sub (Circle.init f r).point).length
        = r ∧
      ((Circle.init f r).tangent_at t false).dot
        ((Circle.init f r).normal_at t false) = 0 ∧
      ((Circle.init f r).tangent_at t false).length = 1 ∧
      ((Circle.init f r).normal_at t false).length = 1) ∧
    ((Circle.init Frame.worldXY 3).point_at 0 false = ⟨3, 0, 0⟩ ∧
      (Circle.init Frame.worldXY 3).point_at (Real.pi / 2) false = ⟨0, 3, 0⟩ ∧
      (Circle.init Frame.worldXY 3).circumference = 6 * Real.pi ∧
      (Circle.init Frame.worldXY 3).area = 9 * Real.pi) := by
  obtain ⟨hX, hY, hXY⟩ := hf
  have hdist : ((((Circle.init f r).point_at t false).sub
      (Circle.init f r).point)).length = r := by
    rw [circle_init_point_sub_center, V3.length, V3.dot_lincomb, hX, hY, hXY,
      show (r * Real.cos t) ^ 2 * 1 +
          2 * (r * Real.cos t) * (r * Real.sin t) * 0 +
          (r * Real.sin t) ^ 2 * 1 = r ^ 2 from by
        linear_combination r ^ 2 * Real.sin_sq_add_cos_sq t,
      Real.sqrt_sq hr.le]
  have hwdot : ((f.xaxis.smul (-(r * Real.cos t))).add
      (f.yaxis.smul (-(r * Real.sin t)))).dot
      ((f.xaxis.smul (-(r * Real.cos t))).add
        (f.yaxis.smul (-(r * Real.sin t)))) = r ^ 2 := by
    rw [V3.dot_lincomb, hX, hY, hXY]
    linear_combination r ^ 2 * Real.sin_sq_add_cos_sq t
  have hwlen : ((f.xaxis.smul (-(r * Real.cos t))).add
      (f.yaxis.smul (-(r * Real.sin t)))).length = r := by
    rw [V3.length, hwdot, Real.sqrt_sq hr.le]
  have hwne : ((f.xaxis.smul (-(r * Real.cos t))).add
      (f.yaxis.smul (-(r * Real.sin t)))).length ≠ 0 := by
    rw [hwlen]; exact ne_of_gt hr
  have hnormal_len : ((Circle.init f r).normal_at t false).length = 1 := by
    rw [circle_init_normal_at]
    exact V3.unitize_length _ hwne
  have hwz : ((f.xaxis.smul (-(r * Real.cos t))).add
      (f.yaxis.smul (-(r * Real.sin t)))).dot f.zaxis = 0 := by
    rw [V3.lincomb_dot, Frame.zaxis, V3.self_dot_cross, V3.other_dot_cross]
    ring
  have hnz : ((Circle.init f r).normal_at t false).dot f.zaxis = 0 := by
    rw [circle_init_normal_at, V3.unitize, V3.smul_dot, hwz, mul_zero]
  have hzz : f.zaxis.dot f.zaxis = 1 := by
    rw [Frame.zaxis, V3.lagrange, hX, hY, hXY]; norm_num
  have hnn : ((Circle.init f r).normal_at t false).dot
      ((Circle.init f r).normal_at t false) = 1 := by
    rw [circle_init_normal_at]
    exact V3.unitize_dot_self _ hwne
  have hcross_dot : (((Circle.init f r).normal_at t false).cross
      f.zaxis).dot (((Circle.init f r).normal_at t false).cross f.zaxis)
      = 1 := by
    rw [V3.lagrange, hnn, hzz, hnz]; norm_num
  have hcross_len : (((Circle.init f r).normal_at t false).cross
      f.zaxis).length = 1 := by
    rw [V3.length, hcross_dot, Real.sqrt_one]
  have htangent_len : ((Circle.init f r).tangent_at t false).length = 1 := by
    rw [circle_init_tangent_at]
    exact V3.unitize_length _ (by rw [hcross_len]; norm_num)
  have hperp : ((Circle.init f r).tangent_at t false).dot
      ((Circle.init f r).normal_at t false) = 0 := by
    rw [circle_init_tangent_at, V3.unitize, V3.smul_dot, V3.dot_cross_left,
      mul_zero]
  refine ⟨⟨hdist, hperp, htangent_len, hnormal_len⟩, ?_, ?_, ?_, ?_⟩
  · ext <;>
      simp [Circle.point_at, Circle.init, Transformation.applyPoint,
        Transformation.from_frame, Frame.worldXY, Frame.zaxis, V3.cross,
        V3.add, V3.smul, V3.zero]
  · ext <;>
      simp [Circle.point_at, Circle.init, Transformation.applyPoint,
        Transformation.from_frame, Frame.worldXY, Frame.zaxis, V3.cross,
        V3.add, V3.smul, V3.zero, Real.cos_pi_div_two, Real.sin_pi_div_two]
  · show 2 * Real.pi * 3 = 6 * Real.pi
    ring
  · show Real.pi * 3 ^ 2 = 9 * Real.pi
    ring

/-- C3 witness: the theorem applied on the world XY frame with radius 3 at
parameter 0, the orthonormality and positivity hypotheses discharged
concretely. -/
theorem C3_circle_evaluators_witness :
    ((((Circle.init Frame.worldXY 3).point_at 0 false).sub
        (Circle.init Frame.worldXY 3).point).length = 3 ∧
      ((Circle.init Frame.worldXY 3).tangent_at 0 false).dot
        ((Circle.init Frame.worldXY 3).normal_at 0 false) = 0 ∧
      ((Circle.init Frame.worldXY 3).tangent_at 0 false).length = 1 ∧
      ((Circle.init Frame.worldXY 3).normal_at 0 false).length = 1) ∧
    ((Circle.init Frame.worldXY 3).point_at 0 false = ⟨3, 0, 0⟩ ∧
      (Circle.init Frame.worldXY 3).point_at (Real.pi / 2) false = ⟨0, 3, 0⟩ ∧
      (Circle.init Frame.worldXY 3).circumference = 6 * Real.pi ∧
      (Circle.init Frame.worldXY 3).area = 9 * Real.pi) :=
  C3_circle_evaluators Frame.worldXY 3 0 worldXY_orthonormal (by norm_num)

/-!
Parabola focus-directrix lemmas for claim C4.
-/

lemma V3.dot_comm (u v : V3) : u.dot v = v.dot u := by
  simp only [V3.dot]; ring

lemma parabola_init_point_at_zero (f : Frame) (fc : ℝ) :
    (Parabola.init f fc).point_at 0 = (Parabola.init f fc).vertex := by
  ext <;>
    simp [Parabola.point_at, Parabola.init, Parabola.vertex, Parabola.a,
      Transformation.applyPoint, Transformation.from_frame, Frame.zaxis,
      V3.add, V3.smul, V3.cross]

lemma parabola_init_point_at_sub_focus (f : Frame) (fc t : ℝ) :
    ((Parabola.init f fc).point_at t).sub (Parabola.init f fc).focus =
      (f.xaxis.smul t).add
        (f.yaxis.smul (1 / (4 * fc) * t ^ 2 - fc)) := by
  ext <;>
    simp [Parabola.point_at, Parabola.init, Parabola.focus, Parabola.a,
      Transformation.applyPoint, Transformation.from_frame, Frame.zaxis,
      V3.add, V3.sub, V3.smul, V3.cross] <;>
    ring

lemma parabola_init_directix_vector (f : Frame) (fc : ℝ) :
    (Parabola.init f fc).directix.vector = f.xaxis := by
  ext <;>
    simp [Parabola.directix, Parabola.init, Line.vector, Line.init,
      V3.add, V3.sub, V3.smul]

lemma parabola_init_point_at_sub_directix_start (f : Frame) (fc t : ℝ) :
    ((Parabola.init f fc).point_at t).sub
        ((Parabola.init f fc).directix.start) =
      (f.xaxis.smul t).add
        (f.yaxis.smul (1 / (4 * fc) * t ^ 2 + fc)) := by
  ext <;>
    simp [Parabola.point_at, Parabola.init, Parabola.directix, Parabola.a,
      Line.init, Transformation.applyPoint, Transformation.from_frame,
      Frame.zaxis, V3.add, V3.sub, V3.smul, V3.cross] <;>
    ring

/-- C4: for every parabola on an orthonormal frame with positive focal
distance, point_at(0) is the vertex, the vertex is the frame origin, and
for every parameter t the distance from point_at(t) to the focus equals the
distance from point_at(t) to the directrix line. -/
theorem C4_parabola_focus_directrix (f : Frame) (fc t : ℝ)
    (hf : f.Orthonormal) (hfc : 0 < fc) :
    (Parabola.init f fc).point_at 0 = (Parabola.init f fc).vertex ∧
    (Parabola.init f fc).vertex = f.point ∧
    (((Parabola.init f fc).point_at t).sub
        (Parabola.init f fc).focus).length =
      distToLine ((Parabola.init f fc).point_at t)
        ((Parabola.init f fc).directix) := by
  obtain ⟨hX, hY, hXY⟩ := hf
  have hfc' : fc ≠ 0 := ne_of_gt hfc
  have hYX : f.yaxis.dot f.xaxis = 0 := by rw [V3.dot_comm]; exact hXY
  have hs : 0 < 1 / (4 * fc) * t ^ 2 + fc := by positivity
  have hd1 : (((Parabola.init f fc).point_at t).sub
      (Parabola.init f fc).focus).length =
      Real.sqrt (t ^ 2 + (1 / (4 * fc) * t ^ 2 - fc) ^ 2) := by
    rw [parabola_init_point_at_sub_focus, V3.length, V3.dot_lincomb, hX, hY,
      hXY]
    congr 1; ring
  have hdirlen : (Parabola.init f fc).directix.length = 1 := by
    rw [Line.length, parabola_init_directix_vector, V3.length, hX,
      Real.sqrt_one]
  have hdir : (Parabola.init f fc).directix.direction = f.xaxis := by
    rw [Line.direction, parabola_init_directix_vector, hdirlen]
    ext <;> simp [V3.smul]
  have hwd : (((Parabola.init f fc).point_at t).sub
      ((Parabola.init f fc).directix.start)).dot f.xaxis = t := by
    rw [parabola_init_point_at_sub_directix_start, V3.lincomb_dot, hX, hYX]
    ring
  have hperp : ((((Parabola.init f fc).point_at t).sub
      ((Parabola.init f fc).directix.start)).sub (f.xaxis.smul t)) =
      f.yaxis.smul (1 / (4 * fc) * t ^ 2 + fc) := by
    rw [parabola_init_point_at_sub_directix_start]
    ext <;> simp [V3.add, V3.sub, V3.smul]
  have hYlen : f.yaxis.length = 1 := by rw [V3.length, hY, Real.sqrt_one]
  have hd2 : distToLine ((Parabola.init f fc).point_at t)
      ((Parabola.init f fc).directix) = 1 / (4 * fc) * t ^ 2 + fc := by
    show (((((Parabola.init f fc).point_at t).sub
        ((Parabola.init f fc).directix.start)).sub
          (((Parabola.init f fc).directix.direction).smul
            ((((Parabola.init f fc).point_at t).sub
              ((Parabola.init f fc).directix.start)).dot
                ((Parabola.init f fc).directix.direction)))).length) =
      1 / (4 * fc) * t ^ 2 + fc
    rw [hdir, hwd, hperp, V3.length_smul, hYlen, mul_one, abs_of_pos hs]
  have hkey : t ^ 2 + (1 / (4 * fc) * t ^ 2 - fc) ^ 2 =
      (1 / (4 * fc) * t ^ 2 + fc) ^ 2 := by
    field_simp
    ring
  refine ⟨parabola_init_point_at_zero f fc, rfl, ?_⟩
  rw [hd1, hd2, hkey, Real.sqrt_sq hs.le]

/-- C4 witness: the theorem applied on the world XY frame with focal
distance 1 at parameter 2, the hypotheses discharged concretely. -/
theorem C4_parabola_focus_directrix_witness :
    (Parabola.init Frame.worldXY 1).point_at 0 =
      (Parabola.init Frame.worldXY 1).vertex ∧
    (Parabola.init Frame.worldXY 1).vertex = Frame.worldXY.point ∧
    (((Parabola.init Frame.worldXY 1).point_at 2).sub
        (Parabola.init Frame.worldXY 1).focus).length =
      distToLine ((Parabola.init Frame.worldXY 1).point_at 2)
        ((Parabola.init Frame.worldXY 1).directix) :=
  C4_parabola_focus_directrix Frame.worldXY 1 2 worldXY_orthonormal
    (by norm_num)

/-!
Hyperbola pole lemmas for claim C7.
-/

lemma cos_three_pi_div_two : Real.cos (3 * Real.pi / 2) = 0 := by
  have h : 3 * Real.pi / 2 = Real.pi + Real.pi / 2 := by ring
  rw [h, Real.cos_add, Real.cos_pi_div_two, Real.sin_pi_div_two, Real.cos_pi,
    Real.sin_pi]
  ring

lemma cos_ne_zero_in_domain (t : ℝ) (h0 : 0 ≤ t) (h2 : t < 2 * Real.pi)
    (hne1 : t ≠ Real.pi / 2) (hne2 : t ≠ 3 * Real.pi / 2) :
    Real.cos t ≠ 0 := by
  intro hc
  rw [Real.cos_eq_zero_iff] at hc
  obtain ⟨n, hn⟩ := hc
  have hpi := Real.pi_pos
  rw [hn] at h0 h2
  have h1 : (0 : ℝ) ≤ 2 * (n : ℝ) + 1 := by nlinarith
  have h4 : (2 : ℝ) * (n : ℝ) + 1 < 4 := by nlinarith
  have hz1 : (0 : ℤ) ≤ 2 * n + 1 := by exact_mod_cast h1
  have hz4 : (2 : ℤ) * n + 1 < 4 := by exact_mod_cast h4
  have : n = 0 ∨ n = 1 := by omega
  rcases this with rfl | rfl
  · apply hne1; rw [hn]; push_cast; ring
  · apply hne2; rw [hn]; push_cast; ring

/-- C7: evaluating a hyperbola at t = pi / 2 or t = 3 pi / 2 fails with the
division-by-zero condition of the secant term (the none result), and for
every other parameter in the domain interval the evaluation returns the
local point (a sec t, b sin t sec t, 0) mapped through the cached frame
transformation. -/
theorem C7_hyperbola_pole (h : Hyperbola) :
    h.point_at (Real.pi / 2) false = none ∧
    h.point_at (3 * Real.pi / 2) false = none ∧
    ∀ t : ℝ, 0 ≤ t → t < 2 * Real.pi → t ≠ Real.pi / 2 →
      t ≠ 3 * Real.pi / 2 →
      h.point_at t false =
        some (h.transformation.applyPoint
          ⟨h.a * (1 / Real.cos t), h.b * Real.sin t * (1 / Real.cos t), 0⟩) := by
  refine ⟨?_, ?_, ?_⟩
  · simp [Hyperbola.point_at, Real.cos_pi_div_two]
  · simp [Hyperbola.point_at, cos_three_pi_div_two]
  · intro t h0 h2 hne1 hne2
    have hc := cos_ne_zero_in_domain t h0 h2 hne1 hne2
    simp [Hyperbola.point_at, hc]

/-- C7 witness: the theorem applied on a concrete hyperbola, with the
regular branch taken at t = 0. -/
theorem C7_hyperbola_pole_witness :
    (Hyperbola.init Frame.worldXY 1 1).point_at (Real.pi / 2) false = none ∧
    (Hyperbola.init Frame.worldXY 1 1).point_at (3 * Real.pi / 2) false
      = none ∧
    (Hyperbola.init Frame.worldXY 1 1).point_at 0 false =
      some ((Hyperbola.init Frame.worldXY 1 1).transformation.applyPoint
        ⟨(Hyperbola.init Frame.worldXY 1 1).a * (1 / Real.cos 0),
          (Hyperbola.init Frame.worldXY 1 1).b * Real.sin 0 *
            (1 / Real.cos 0), 0⟩) := by
  have H := C7_hyperbola_pole (Hyperbola.init Frame.worldXY 1 1)
  exact ⟨H.1, H.2.1,
    H.2.2 0 le_rfl (by positivity)
      (by positivity : (0 : ℝ) < Real.pi / 2).ne
      (by positivity : (0 : ℝ) < 3 * Real.pi / 2).ne⟩

/-!
Parabola secant tangent for claim C8.
-/

/-- The unitized exact derivative direction (1, 2 a t, 0) of the local
parabola equation y = a x squared, mapped as a direction through the cached
frame transformation the same way the secant tangent is mapped.  This
follows the wording of the spec (the exact derivative 2 a t) and exists to
be compared with the secant construction of Parabola.tangent_at. -/
def Parabola.exactTangentDir (p : Parabola) (t : ℝ) : V3 :=
  p.transformation.applyVector (V3.unitize ⟨1, 2 * p.a * t, 0⟩)

/-- C8 counterexample: the claim asserts the secant-based direction differs
from the unitized exact derivative direction at every finite parameter;
at t = 1 on the concrete parabola with focal 1 the two directions are
equal (the secant direction (t, 2 a t squared) is t times the derivative
direction (1, 2 a t)). -/
theorem C8_counterexample :
    (Parabola.init Frame.worldXY 1).tangent_at 1 =
      (Parabola.init Frame.worldXY 1).exactTangentDir 1 := by
  norm_num [Parabola.tangent_at, Parabola.exactTangentDir, Parabola.a,
    Parabola.init]

/-- C8 amended: tangent_at computes the secant direction (t, 2 a t squared)
of the construction between (t, a t squared) and (2 t, 2 a t (2 t) minus
a t squared), unitized and mapped through the frame transformation, and
normal_at is the corresponding perpendicular of the same secant direction;
the returned direction coincides with the unitized exact derivative
direction for every t above 0 (the two vectors are positive multiples) and
differs from it only for t at or below 0: at t = 0 the secant direction
degenerates to the zero vector (a division by zero in the reference
unitization). -/
theorem C8_amended_secant_tangent (p : Parabola) (t : ℝ) :
    p.tangent_at t =
      p.transformation.applyVector (V3.unitize ⟨t, 2 * p.a * t ^ 2, 0⟩) ∧
    p.normal_at t =
      p.transformation.applyVector
        (V3.unitize ⟨-(2 * p.a * t ^ 2), t, 0⟩) ∧
    (0 < t → p.tangent_at t = p.exactTangentDir t) ∧
    p.tangent_at 0 = p.transformation.applyVector V3.zero := by
  have h1 : p.tangent_at t =
      p.transformation.applyVector (V3.unitize ⟨t, 2 * p.a * t ^ 2, 0⟩) := by
    show p.transformation.applyVector
        (V3.unitize ⟨2 * t - t,
          2 * p.a * t * (2 * t) - p.a * t ^ 2 - p.a * t ^ 2, 0⟩) = _
    congr 2
    ext <;> simp <;> ring
  have h2 : p.normal_at t =
      p.transformation.applyVector
        (V3.unitize ⟨-(2 * p.a * t ^ 2), t, 0⟩) := by
    show p.transformation.applyVector
        (V3.unitize ⟨p.a * t ^ 2 -
          (2 * p.a * t * (2 * t) - p.a * t ^ 2), 2 * t - t, 0⟩) = _
    congr 2
    ext <;> simp <;> ring
  have h3 : 0 < t → p.tangent_at t = p.exactTangentDir t := by
    intro ht
    rw [h1]
    show _ = p.transformation.applyVector (V3.unitize ⟨1, 2 * p.a * t, 0⟩)
    congr 1
    have hsm : (⟨t, 2 * p.a * t ^ 2, 0⟩ : V3) =
        (⟨1, 2 * p.a * t, 0⟩ : V3).smul t := by
      ext <;> simp [V3.smul]
      ring
    rw [hsm, V3.unitize_smul_pos _ t ht]
  have h4 : p.tangent_at 0 = p.transformation.applyVector V3.zero := by
    show p.transformation.applyVector
        (V3.unitize ⟨2 * 0 - 0,
          2 * p.a * 0 * (2 * 0) - p.a * 0 ^ 2 - p.a * 0 ^ 2, 0⟩) = _
    congr 1
    ext <;> simp [V3.unitize, V3.smul, V3.zero]
  exact ⟨h1, h2, h3, h4⟩

/-- C8 witness: the coincidence with the exact derivative direction applied
at the positive parameter 2 on a concrete parabola. -/
theorem C8_amended_secant_tangent_witness :
    (Parabola.init Frame.worldXY 1).tangent_at 2 =
      (Parabola.init Frame.worldXY 1).exactTangentDir 2 :=
  (C8_amended_secant_tangent (Parabola.init Frame.worldXY 1) 2).2.2.1
    (by norm_num)

end Compas
